import Mathlib

/-!
Verification of the session/tool-dispatch core of the `goose-rust-port`
repository against its specification.

Shallow embedding conventions:
* `serde_json::Value` is modelled by the inductive `Json` (numbers are
  modelled as `Int`; the claims under study only involve integer-valued
  JSON numbers, which is what `as_i64` extracts in the source).
* Fallible Rust functions returning `anyhow::Result` are modelled with
  `Except String`; the error string is the formatted `anyhow!` message.
* File-system and process side effects are modelled by an explicit
  environment record `Env`; writes performed by a tool are reported in the
  result so that theorems can talk about them.
* A Rust `panic` (out-of-bounds slice) is modelled by the distinguished
  outcome `ToolOutcome.crash`, separate from the `Err` channel.
* Mutation of `&mut self` state is modelled by explicit state passing:
  each operation returns the new state together with its `Result`.
-/

set_option autoImplicit false

namespace Goose

/-! ## JSON values (model of `serde_json::Value`) -/

/-- Model of `serde_json::Value`.  Numbers are modelled as `Int`:
`as_i64` in the source returns `Some` exactly for integer-valued numbers
that fit in `i64`, and the claims only involve such numbers. -/
inductive Json where
  | null
  | bool (b : Bool)
  | num (n : Int)
  | str (s : String)
  | arr (elems : List Json)
  | obj (fields : List (String × Json))
deriving Repr

/-- Model of `Value::get(key)`: field lookup on objects, `None` otherwise. -/
def Json.get? (j : Json) (key : String) : Option Json :=
  match j with
  | .obj fields => fields.lookup key
  | _ => none

/-- Model of `Value::as_str`. -/
def Json.asStr? : Json → Option String
  | .str s => some s
  | _ => none

/-- Model of `Value::as_i64` (restricted to the integer-number model):
an integer-valued number is returned only when it is representable in
`i64`. -/
def Json.asInt? : Json → Option Int
  | .num n => if -(2 ^ 63) ≤ n ∧ n < 2 ^ 63 then some n else none
  | _ => none

/-- Model of `Value::as_array`. -/
def Json.asArr? : Json → Option (List Json)
  | .arr elems => some elems
  | _ => none

/-- Model of `Value::as_object` (the object's field list). -/
def Json.asObj? : Json → Option (List (String × Json))
  | .obj fields => some fields
  | _ => none

/-! ## Message model (`src/models/message.rs`) -/

/-- Model of `Role` from `src/models/message.rs`. -/
inductive Role where
  | User
  | Assistant
deriving DecidableEq, Repr

/-- Model of `Content` from `src/models/message.rs`. -/
inductive Content where
  | Text (text : String)
  | ToolUse (id : String) (name : String) (parameters : Json)
  | ToolResult (tool_use_id : String) (output : String) (is_error : Bool)
deriving Repr

/-- Model of `matches!(c, Content::Text { .. })`. -/
def Content.isText : Content → Bool
  | .Text _ => true
  | _ => false

/-- Model of `matches!(c, Content::ToolUse { .. })`. -/
def Content.isToolUse : Content → Bool
  | .ToolUse _ _ _ => true
  | _ => false

/-- Model of `matches!(c, Content::ToolResult { .. })`. -/
def Content.isToolResult : Content → Bool
  | .ToolResult _ _ _ => true
  | _ => false

/-- Model of `Message` from `src/models/message.rs`.  The `id` and `created` fields
are produced from a UUID generator and the system clock in the source;
here they are plain data supplied by the caller. -/
structure Message where
  role : Role
  id : String
  created : Nat
  content : List Content
deriving Repr

/-- Model of `Message::is_user`. -/
def Message.is_user (m : Message) : Bool :=
  match m.role with
  | .User => true
  | .Assistant => false

/-- Model of `Message::is_assistant`. -/
def Message.is_assistant (m : Message) : Bool :=
  match m.role with
  | .User => false
  | .Assistant => true

/-- Model of `Message::has_tool_use`. -/
def Message.has_tool_use (m : Message) : Bool :=
  m.content.any Content.isToolUse

/-- Model of `Message::validate` from `src/models/message.rs` (lines 103-123).
`anyhow::bail!` is modelled by `Except.error` with the bail message. -/
def Message.validate (m : Message) : Except String Unit :=
  match m.role with
  | .User =>
    if !(m.content.any fun c => c.isText || c.isToolResult) then
      .error "User message must include a Text or ToolResult"
    else if m.content.any Content.isToolUse then
      .error "User message does not support ToolUse"
    else
      .ok ()
  | .Assistant =>
    if !(m.content.any fun c => c.isText || c.isToolUse) then
      .error "Assistant message must include a Text or ToolUse"
    else if m.content.any Content.isToolResult then
      .error "Assistant message does not support ToolResult"
    else
      .ok ()

/-! ## Tool (`src/toolkit/tools.rs`) -/

/-- Model of `Tool` from `src/toolkit/tools.rs`. -/
structure Tool where
  name : String
  description : String
  parameters : Json
  required : List String
deriving Repr

/-- Model of `Tool::validate_parameters` from `src/toolkit/tools.rs` (lines 22-30):
true iff every required name is found by `params.get(req)`. -/
def Tool.validate_parameters (t : Tool) (params : Json) : Bool :=
  t.required.all fun req => (params.get? req).isSome

/-! ## The default toolkit (`src/toolkit/default.rs`)

`DefaultToolkit::process_tool` performs file-system and process side
effects; these are supplied by an explicit environment. -/

/-- Environment for `process_tool`: results of `std::fs::read_to_string`,
`std::fs::write` and of spawning `bash -c script` (stdout, stderr).
Errors carry the formatted OS diagnostic. -/
structure Env where
  readFile : String → Except String String
  writeFile : String → String → Except String Unit
  runBash : String → Except String (String × String)

/-- Outcome of `process_tool`.
* `ok text writes`: the `Ok(Message::assistant(text))` return value,
  together with the `(path, contents)` file writes performed, in order;
* `err msg`: an `Err(anyhow!(msg))` hard error propagated to the caller;
* `crash`: a Rust panic (out-of-bounds slice index). -/
inductive ToolOutcome where
  | ok (msgText : String) (writes : List (String × String))
  | err (msg : String)
  | crash
deriving Repr, DecidableEq

/-- Model of `params.get(k).and_then(|v| v.as_str())` on an object's field list. -/
def get_str (params : List (String × Json)) (k : String) : Option String :=
  (params.lookup k).bind Json.asStr?

/-- Model of `params.get(k).and_then(|v| v.as_i64())` on an object's field list. -/
def get_int (params : List (String × Json)) (k : String) : Option Int :=
  (params.lookup k).bind Json.asInt?

/-- Model of `params.get(k).and_then(|v| v.as_array())` on an object's field list. -/
def get_arr (params : List (String × Json)) (k : String) : Option (List Json) :=
  (params.lookup k).bind Json.asArr?

/-- Split a character list at every newline character (the separators are
consumed; a trailing newline yields a trailing empty segment). -/
def split_newlines : List Char → List (List Char)
  | [] => [[]]
  | c :: rest =>
    if c = '\n' then [] :: split_newlines rest
    else
      match split_newlines rest with
      | [] => [[c]]
      | h :: t => (c :: h) :: t

/-- Strip one trailing carriage return from a segment that was
terminated by a newline (the `"\r\n"` line ending of `str::lines`). -/
def strip_cr (l : List Char) : List Char :=
  if l.getLast? = some '\r' then l.dropLast else l

/-- Model of Rust `str::lines().collect()`: the string is split at every
`'\n'`; each segment that was terminated by a `'\n'` (every segment but
the last) has one trailing `'\r'` stripped, covering the `"\r\n"` line
ending; the final unterminated segment keeps a bare `'\r'` — as in the
std example where the last line of `"foo\r\nbar\n\nbaz\r"` is
`"baz\r"` — and the empty final segment produced by a trailing newline
is dropped (so the empty string has no lines). -/
def rust_lines (s : String) : List String :=
  let parts := split_newlines s.data
  let terminated := parts.dropLast.map strip_cr
  match parts.getLast? with
  | some [] => terminated.map fun l => String.mk l
  | some last => (terminated ++ [last]).map fun l => String.mk l
  | none => []

/-- Leftmost, non-overlapping replacement of every occurrence of `old` by
`new`, the loop underlying Rust `str::replace` for a non-empty pattern. -/
def replace_all (old new : List Char) : List Char → List Char
  | [] => []
  | c :: rest =>
    if old.isPrefixOf (c :: rest) then
      new ++ replace_all old new (rest.drop (old.length - 1))
    else
      c :: replace_all old new rest
termination_by l => l.length
decreasing_by
  all_goals simp [List.length_drop]
  omega

/-- Model of Rust `str::replace(old, new)` (argument order: subject,
pattern, replacement).  An empty pattern matches at every character
boundary, including both ends of the string. -/
def rust_replace (s old new : String) : String :=
  if old.data.isEmpty then
    String.mk (new.data ++ s.data.flatMap fun c => c :: new.data)
  else
    String.mk (replace_all old.data new.data s.data)

/-- The `bash` branch of `DefaultToolkit::process_tool`
(`src/toolkit/default.rs` lines 152-208). -/
def process_bash (env : Env) (parameters : Json) : ToolOutcome :=
  match parameters.asObj? with
  | none => .err "Invalid parameters for bash tool"
  | some params =>
    let working_dir := get_str params "working_dir"
    let source_path := get_str params "source_path"
    let command := get_str params "command"
    if working_dir.isNone && source_path.isNone && command.isNone then
      .err "At least one parameter must be provided for bash tool"
    else
      let script :=
        (match working_dir with
          | some dir => "cd \"" ++ dir ++ "\" && "
          | none => "") ++
        ((match source_path with
          | some p => "source \"" ++ p ++ "\" && "
          | none => "") ++
         (match command with
          | some c => c
          | none => ""))
      match env.runBash script with
      | .error e => .err ("Failed to execute bash command: " ++ e)
      | .ok (out, errOut) =>
        let result := if out = "" then "" else out
        let result :=
          if errOut = "" then result
          else if result = "" then errOut
          else result ++ "\n" ++ errOut
        .ok result []

/-- The `view` sub-command of the `text_editor` branch
(`src/toolkit/default.rs` lines 223-245).  Two panic sources are
modelled by `crash`: the `i64` subtraction `range[0] - 1` overflows at
`i64::MIN` (a panic in debug builds; in release it wraps to `i64::MAX`,
whose cast to `usize` overflows the slice), and the slice
`lines[start..end]` panics unless `start ≤ end ≤ lines.len()` — in
particular a negative `end` cast to `usize` wraps far beyond any file
length. -/
def te_view (env : Env) (params : List (String × Json)) (path : String) : ToolOutcome :=
  match env.readFile path with
  | .error e => .err ("Failed to read file: " ++ e)
  | .ok content =>
    match get_arr params "view_range" with
    | some rangeVals =>
      match rangeVals.filterMap Json.asInt? with
      | [a, b] =>
        let lines := rust_lines content
        if a = -(2 ^ 63) then
          .crash
        else
          let s : Int := max (a - 1) 0
          let e : Int := min b (lines.length : Int)
          if 0 ≤ e ∧ s ≤ e then
            .ok (String.intercalate "\n" ((lines.drop s.toNat).take (e.toNat - s.toNat))) []
          else
            .crash
      | _ => .err "view_range must contain exactly 2 numbers"
    | none => .ok content []

/-- The `create` sub-command of the `text_editor` branch
(`src/toolkit/default.rs` lines 247-256). -/
def te_create (env : Env) (params : List (String × Json)) (path : String) : ToolOutcome :=
  match get_str params "file_text" with
  | none => .err "Missing file_text parameter"
  | some content =>
    match env.writeFile path content with
    | .error e => .err ("Failed to write file: " ++ e)
    | .ok _ => .ok ("Created file " ++ path) [(path, content)]

/-- The `str_replace` sub-command of the `text_editor` branch
(`src/toolkit/default.rs` lines 258-276). -/
def te_str_replace (env : Env) (params : List (String × Json)) (path : String) : ToolOutcome :=
  match get_str params "old_str" with
  | none => .err "Missing old_str parameter"
  | some old_str =>
    let new_str := (get_str params "new_str").getD ""
    match env.readFile path with
    | .error e => .err ("Failed to read file: " ++ e)
    | .ok content =>
      let new_content := rust_replace content old_str new_str
      match env.writeFile path new_content with
      | .error e => .err ("Failed to write file: " ++ e)
      | .ok _ =>
        .ok ("Replaced \x27" ++ old_str ++ "\x27 with \x27" ++ new_str ++ "\x27 in " ++ path)
          [(path, new_content)]

/-- The `insert` sub-command of the `text_editor` branch
(`src/toolkit/default.rs` lines 278-302).  A negative `insert_line` cast
to `usize` wraps past any file length, so the bound check rejects it. -/
def te_insert (env : Env) (params : List (String × Json)) (path : String) : ToolOutcome :=
  match get_str params "new_str" with
  | none => .err "Missing new_str parameter"
  | some new_str =>
    match get_int params "insert_line" with
    | none => .err "Missing or invalid insert_line parameter"
    | some insert_line =>
      match env.readFile path with
      | .error e => .err ("Failed to read file: " ++ e)
      | .ok content =>
        let lines := rust_lines content
        if insert_line < 0 ∨ (lines.length : Int) < insert_line then
          .err "insert_line is beyond end of file"
        else
          let new_content := String.intercalate "\n" (lines.insertIdx insert_line.toNat new_str)
          match env.writeFile path new_content with
          | .error e => .err ("Failed to write file: " ++ e)
          | .ok _ =>
            .ok ("Inserted \x27" ++ new_str ++ "\x27 after line " ++ toString insert_line
                  ++ " in " ++ path)
              [(path, new_content)]

/-- The `text_editor` branch of `DefaultToolkit::process_tool`
(`src/toolkit/default.rs` lines 210-311). -/
def process_text_editor (env : Env) (parameters : Json) : ToolOutcome :=
  match parameters.asObj? with
  | none => .err "Invalid parameters for text_editor tool"
  | some params =>
    match get_str params "command" with
    | none => .err "Missing command parameter"
    | some command =>
      match get_str params "path" with
      | none => .err "Missing path parameter"
      | some path =>
        if command = "view" then te_view env params path
        else if command = "create" then te_create env params path
        else if command = "str_replace" then te_str_replace env params path
        else if command = "insert" then te_insert env params path
        else if command = "undo_edit" then .err "Undo functionality not yet implemented"
        else .err ("Unknown text_editor command: " ++ command)

/-- Model of `DefaultToolkit::process_tool` (`src/toolkit/default.rs` lines
150-325): dispatch on the tool name; every failure is returned through
the `Err` channel of the `Result`, never wrapped into a `ToolResult`. -/
def process_tool (env : Env) (tool_call : Tool) : ToolOutcome :=
  if tool_call.name = "bash" then process_bash env tool_call.parameters
  else if tool_call.name = "text_editor" then process_text_editor env tool_call.parameters
  else if tool_call.name = "fetch_web_content" then
    .err "Web content fetching not yet implemented"
  else if tool_call.name = "process_manager" then
    .err "Process management not yet implemented"
  else .err ("Unknown tool: " ++ tool_call.name)

/-! ## Exchange (`src/exchange/mod.rs`)

The `Provider` trait object held by the `Exchange` is modelled by a
record of its two capabilities; the `&mut`-style mutation of the
`messages` vector and `token_usage` counter is modelled by returning the
new `Exchange` state alongside the `Result`.  An early `?` return leaves
the state exactly as it was. -/

/-- Model of the `Provider` trait object: the result of
`provider.generate(&messages)` for each history, and the value
`provider.get_token_usage()` reports for that call. -/
structure Provider where
  gen : List Message → Except String Message
  usage : Nat

/-- Model of `Exchange` from `src/exchange/mod.rs`: conversation history and the
token-usage counter (a `u32` in the source). -/
structure Exchange where
  provider : Provider
  messages : List Message
  token_usage : Nat

/-- Model of `Exchange::add_message` (`src/exchange/mod.rs` lines 54-59):
validate, then push; the `?` on `validate` returns before any mutation. -/
def Exchange.add_message (ex : Exchange) (message : Message) : Exchange × Except String Unit :=
  match message.validate with
  | .error e => (ex, .error e)
  | .ok _ => ({ ex with messages := ex.messages ++ [message] }, .ok ())

/-- Model of `Exchange::generate` (`src/exchange/mod.rs` lines 62-76): call the
provider on the current history; on failure the `?` returns before the
usage update and the push; on success add the reported usage (u32
arithmetic) and append the response. -/
def Exchange.generate (ex : Exchange) : Exchange × Except String Message :=
  match ex.provider.gen ex.messages with
  | .error e => (ex, .error e)
  | .ok response =>
    ({ ex with
        token_usage := (ex.token_usage + ex.provider.usage) % 2 ^ 32,
        messages := ex.messages ++ [response] },
      .ok response)

/-- Model of `Exchange::rewind` (`src/exchange/mod.rs` lines 79-83):
`messages.pop()` with the result discarded, then `Ok(())`. -/
def Exchange.rewind (ex : Exchange) : Exchange × Except String Unit :=
  ({ ex with messages := ex.messages.dropLast }, .ok ())

/-! ## Session interrupt recovery (`src/cli/session.rs` lines 221-243;
the same code appears as `SessionLoop::handle_interrupt` in
`src/session/mod.rs` lines 110-132). -/

/-- The part of the `Session` state that `handle_interrupt` touches:
the message history and the atomic interruption flag. -/
structure Session where
  messages : List Message
  interrupted : Bool
deriving Repr

/-- Model of `Session::handle_interrupt`: if the last message is a `User`
message, pop it; then, if the (possibly new) last message is an
`Assistant` message with tool use, switch to the advisory recovery text;
finally store `false` into the interruption flag.  Returns the new state
and the recovery text printed to the operator. -/
def Session.handle_interrupt (s : Session) : Session × String :=
  match s.messages.getLast? with
  | none =>
    ({ s with interrupted := false }, "We interrupted before the next processing started.")
  | some last =>
    let msgs := if last.is_user then s.messages.dropLast else s.messages
    let recovery :=
      if last.is_user then "We interrupted before the model replied and removed the last message."
      else "We interrupted before the next processing started."
    let recovery :=
      match msgs.getLast? with
      | some l2 =>
        if l2.is_assistant && l2.has_tool_use then
          "We interrupted the existing tool call. How would you like to proceed?"
        else recovery
      | none => recovery
    ({ messages := msgs, interrupted := false }, recovery)

/-! ## Concrete sample values used by witnesses -/

/-- A provider whose backend call always fails. -/
def failing_provider : Provider :=
  { gen := fun _ => .error "connection refused", usage := 7 }

/-- An exchange with empty history over the failing provider. -/
def sample_exchange : Exchange :=
  { provider := failing_provider, messages := [], token_usage := 0 }

/-- A well-formed user text message. -/
def text_msg : Message :=
  { role := .User, id := "msg_1", created := 0, content := [.Text "hello"] }

/-- An invalid user message: it carries a `ToolUse` item. -/
def bad_user_msg : Message :=
  { role := .User, id := "msg_2", created := 0,
    content := [.Text "run it", .ToolUse "t1" "bash" Json.null] }

/-- An assistant message carrying a `ToolUse` item. -/
def assistant_tool_msg : Message :=
  { role := .Assistant, id := "msg_3", created := 0,
    content := [.Text "running", .ToolUse "t1" "bash" Json.null] }

/-- A user message with empty content. -/
def empty_user_msg : Message :=
  { role := .User, id := "msg_4", created := 0, content := [] }

/-- A model-issued `text_editor view` tool call with a two-element
`view_range`. -/
def te_view_call (path : String) (a b : Int) : Tool :=
  { name := "text_editor", description := "",
    parameters := Json.obj [("command", Json.str "view"), ("path", Json.str path),
      ("view_range", Json.arr [Json.num a, Json.num b])],
    required := ["command", "path"] }

/-- A model-issued `text_editor str_replace` tool call; `new_str` is
included only when `newOpt` is present. -/
def te_str_replace_call (path old : String) (newOpt : Option String) : Tool :=
  { name := "text_editor", description := "",
    parameters := Json.obj
      ([("command", Json.str "str_replace"), ("path", Json.str path),
        ("old_str", Json.str old)] ++
       (match newOpt with
        | some n => [("new_str", Json.str n)]
        | none => [])),
    required := ["command", "path"] }

/-- An environment with no readable files. -/
def env_missing : Env :=
  { readFile := fun _ => .error "No such file or directory (os error 2)",
    writeFile := fun _ _ => .ok (),
    runBash := fun _ => .error "spawn failure" }

/-- An environment holding one two-line file `f.txt`. -/
def env_two_lines : Env :=
  { readFile := fun p =>
      if p = "f.txt" then .ok "a\nb" else .error "No such file or directory (os error 2)",
    writeFile := fun _ _ => .ok (),
    runBash := fun _ => .error "spawn failure" }

/-- The contents of a ten-line file. -/
def ten_lines_content : String :=
  "l1\nl2\nl3\nl4\nl5\nl6\nl7\nl8\nl9\nl10"

/-- An environment holding the ten-line file `notes.txt`. -/
def env_ten_lines : Env :=
  { readFile := fun p =>
      if p = "notes.txt" then .ok ten_lines_content
      else .error "No such file or directory (os error 2)",
    writeFile := fun _ _ => .ok (),
    runBash := fun _ => .error "spawn failure" }

/-- Specification-side segment extraction: the 1-based inclusive lines
`lo` through `hi` of a line list. -/
def lines_from_to (lines : List String) (lo hi : Nat) : List String :=
  (lines.drop (lo - 1)).take (hi + 1 - lo)

/-- Occurrence test: `pat` appears as a contiguous substring of `s`
(specification-side notion of "old_str occurs in the file content"). -/
def contains_sub (pat s : List Char) : Bool :=
  s.tails.any fun t => pat.isPrefixOf t

/-- An environment holding the file `log.txt` with two occurrences of
`foo`. -/
def env_log : Env :=
  { readFile := fun p =>
      if p = "log.txt" then .ok "foo bar foo"
      else .error "No such file or directory (os error 2)",
    writeFile := fun _ _ => .ok (),
    runBash := fun _ => .error "spawn failure" }

/-! ## Claims about the Exchange -/

/-- Claim C2: `add_message` is atomic: when validation of the message
fails, `add_message` returns that error and the exchange state — history
included — is exactly the state before the call; when validation
succeeds, the new history is exactly the old history with the message
appended at the end (and nothing else changes). -/
theorem add_message_atomic (ex : Exchange) (m : Message) :
    (∀ e, m.validate = .error e → ex.add_message m = (ex, .error e)) ∧
    (m.validate = .ok () → ex.add_message m =
      ({ ex with messages := ex.messages ++ [m] }, .ok ())) := by
  constructor
  · intro e he
    simp [Exchange.add_message, he]
  · intro h
    simp [Exchange.add_message, h]

/-- Witness for `add_message_atomic` at concrete inputs: an invalid
message is rejected leaving the state untouched, and a valid one is
appended. -/
theorem add_message_atomic_witness :
    sample_exchange.add_message bad_user_msg =
      (sample_exchange, .error "User message does not support ToolUse") ∧
    sample_exchange.add_message text_msg =
      ({ sample_exchange with messages := [text_msg] }, .ok ()) :=
  ⟨(add_message_atomic sample_exchange bad_user_msg).1 _ rfl,
   (add_message_atomic sample_exchange text_msg).2 rfl⟩

/-- Claim C3: If the model backend's `generate` call fails, then
`Exchange::generate` surfaces exactly that error and the resulting state
is the state before the call: no message is appended and no usage is
added.  (The definition of `Exchange.generate` invokes the backend once,
so no automatic retry is possible.) -/
theorem generate_backend_failure_preserves_state (ex : Exchange) (e : String)
    (h : ex.provider.gen ex.messages = .error e) :
    ex.generate = (ex, .error e) := by
  simp [Exchange.generate, h]

/-- Witness for `generate_backend_failure_preserves_state`: the failing
provider's error is surfaced and the empty-history exchange unchanged. -/
theorem generate_backend_failure_preserves_state_witness :
    sample_exchange.generate = (sample_exchange, .error "connection refused") :=
  generate_backend_failure_preserves_state sample_exchange "connection refused" rfl

/-- Claim C5 counterexample: The claim says `rewind()` on an empty
history fails with a no-op error.  In the source (`src/exchange/mod.rs`
lines 79-83) the result of `messages.pop()` is discarded and `Ok(())`
is returned unconditionally, so rewinding an empty history reports
success. -/
theorem rewind_empty_reports_success :
    sample_exchange.rewind = (sample_exchange, .ok ()) ∧
    ∀ e, sample_exchange.rewind ≠ (sample_exchange, .error e) := by
  refine ⟨rfl, ?_⟩
  intro e h
  simp [Exchange.rewind, sample_exchange] at h

/-- Claim C5 amended: On a non-empty history `rewind` removes exactly
the most recent message, leaving all earlier messages (and the usage
counter) unchanged; on an empty history `rewind` is a no-op that reports
success, not an error. -/
theorem rewind_behavior (ex : Exchange) :
    (∀ hs m, ex.messages = hs ++ [m] →
      ex.rewind = ({ ex with messages := hs }, .ok ())) ∧
    (ex.messages = [] → ex.rewind = (ex, .ok ())) := by
  obtain ⟨p, msgs, tu⟩ := ex
  constructor
  · intro hs m h
    simp only at h
    simp [Exchange.rewind, h, List.dropLast_concat]
  · intro h
    simp only at h
    simp [Exchange.rewind, h]

/-- Witness for `rewind_behavior`: rewinding a one-message history
yields the empty history, and rewinding the empty history succeeds. -/
theorem rewind_behavior_witness :
    ({ sample_exchange with messages := [text_msg] } : Exchange).rewind =
      (sample_exchange, .ok ()) ∧
    sample_exchange.rewind = (sample_exchange, .ok ()) :=
  ⟨(rewind_behavior _).1 [] text_msg rfl,
   (rewind_behavior sample_exchange).2 rfl⟩

/-! ## Claims about `Message::validate` -/

/-- Claim C4 counterexample: The claim says `validate()` succeeds iff
the never-rules hold (no `ToolUse` in a `User` message, no `ToolResult`
in an `Assistant` message).  The user message with empty content
satisfies both never-rules, yet `validate` rejects it: the source also
requires at least one `Text`/`ToolResult` (resp. `Text`/`ToolUse`)
item. -/
theorem validate_not_only_never_rules :
    (empty_user_msg.content.any Content.isToolUse) = false ∧
    empty_user_msg.validate = .error "User message must include a Text or ToolResult" := by
  constructor <;> rfl

/-- Boolean helper: an implication between boolean tests is a
disjunction. -/
theorem bool_imp_iff_or (x y : Bool) : (x = false → y = true) ↔ (x = true ∨ y = true) := by
  cases x <;> simp

/-- Claim C4 amended: `validate()` succeeds iff the role/content
invariant *together with the non-emptiness requirement* holds: a `User`
message contains no `ToolUse` item and at least one `Text` or
`ToolResult` item; an `Assistant` message contains no `ToolResult` item
and at least one `Text` or `ToolUse` item. -/
theorem validate_characterization (m : Message) :
    m.validate = .ok () ↔
      ((m.role = .User →
          (∃ c ∈ m.content, c.isText = true ∨ c.isToolResult = true) ∧
          ∀ c ∈ m.content, c.isToolUse = false) ∧
       (m.role = .Assistant →
          (∃ c ∈ m.content, c.isText = true ∨ c.isToolUse = true) ∧
          ∀ c ∈ m.content, c.isToolResult = false)) := by
  obtain ⟨role, id, created, content⟩ := m
  cases role <;>
    simp [Message.validate, List.any_eq_true, List.any_eq_false,
      Bool.or_eq_true, ite_eq_iff, bool_imp_iff_or]

/-- Witness for `validate_characterization`: a user text message
satisfies both sides, and the invalid `bad_user_msg` fails both. -/
theorem validate_characterization_witness :
    text_msg.validate = .ok () ∧ bad_user_msg.validate ≠ .ok () := by
  constructor
  · exact (validate_characterization text_msg).2 (by decide)
  · intro h
    have := (validate_characterization bad_user_msg).1 h
    revert this
    decide

/-- Claim C9: `validate()` imposes a non-emptiness requirement beyond the
never-rules: a `User` message with no `Text` and no `ToolResult` item is
rejected, and an `Assistant` message with no `Text` and no `ToolUse`
item is rejected. -/
theorem validate_requires_nonempty_content (m : Message) :
    (m.role = .User → (∀ c ∈ m.content, c.isText = false ∧ c.isToolResult = false) →
      m.validate ≠ .ok ()) ∧
    (m.role = .Assistant → (∀ c ∈ m.content, c.isText = false ∧ c.isToolUse = false) →
      m.validate ≠ .ok ()) := by
  obtain ⟨role, id, created, content⟩ := m
  cases role <;>
    simp [Message.validate, List.any_eq_true, ite_eq_iff]
  · intro h c hc
    rcases h c hc with ⟨h1, h2⟩
    simp [h1, h2]
  · intro h c hc
    rcases h c hc with ⟨h1, h2⟩
    simp [h1, h2]

/-- Witness for `validate_requires_nonempty_content`: the empty-content
user message is rejected. -/
theorem validate_requires_nonempty_content_witness :
    empty_user_msg.validate ≠ .ok () :=
  (validate_requires_nonempty_content empty_user_msg).1 rfl (by decide)

/-! ## Claim about `Tool::validate_parameters` -/

/-- A name is found by `Value::get` on an object iff it is one of the
object's keys. -/
theorem json_get_isSome_iff_key (fields : List (String × Json)) (r : String) :
    ((Json.obj fields).get? r).isSome = true ↔ r ∈ fields.map Prod.fst := by
  simp only [Json.get?, List.lookup_isSome_iff, List.mem_map, beq_iff_eq]
  constructor
  · rintro ⟨p, hp, he⟩
    exact ⟨p, hp, he.symm⟩
  · rintro ⟨p, hp, he⟩
    exact ⟨p, hp, he.symm⟩

/-- Claim C6: Tool parameter validation succeeds iff every name in the
tool's `required` list is present as a key of the parameters object; in
particular omitting any single required entry fails validation, and
supplying all required entries — regardless of any extra fields or of
the associated values — succeeds. -/
theorem validate_parameters_iff_required_present (t : Tool) (fields : List (String × Json)) :
    (t.validate_parameters (Json.obj fields) = true ↔
      ∀ r ∈ t.required, r ∈ fields.map Prod.fst) ∧
    (∀ r, r ∈ t.required → r ∉ fields.map Prod.fst →
      t.validate_parameters (Json.obj fields) = false) ∧
    (∀ params : Json, (∀ r ∈ t.required, (params.get? r).isSome = true) →
      t.validate_parameters params = true) := by
  have h1 : t.validate_parameters (Json.obj fields) = true ↔
      ∀ r ∈ t.required, r ∈ fields.map Prod.fst := by
    simp [Tool.validate_parameters, List.all_eq_true, json_get_isSome_iff_key]
  refine ⟨h1, ?_, ?_⟩
  · intro r hr hnot
    by_contra hne
    rw [Bool.not_eq_false] at hne
    exact hnot (h1.mp hne r hr)
  · intro params hall
    simp only [Tool.validate_parameters, List.all_eq_true]
    exact hall

/-- Witness for `validate_parameters_iff_required_present`: the
`text_editor` tool's requirements (`command`, `path`) are satisfied by
an object with both keys and an extra field, and violated when `path`
is omitted. -/
theorem validate_parameters_witness :
    (Tool.mk "text_editor" "" Json.null ["command", "path"]).validate_parameters
      (Json.obj [("command", Json.str "view"), ("path", Json.str "f"),
        ("extra", Json.num 1)]) = true ∧
    (Tool.mk "text_editor" "" Json.null ["command", "path"]).validate_parameters
      (Json.obj [("command", Json.str "view")]) = false := by
  constructor
  · exact (validate_parameters_iff_required_present _ []).2.2 _ (by decide)
  · exact (validate_parameters_iff_required_present _ _).2.1 "path" (by decide) (by decide)

/-! ## Claim about interrupt recovery -/

/-- Claim C8: When interrupt recovery runs: if the most recent history
entry is a `User` message, exactly that message is removed (all earlier
messages unchanged) and the interruption flag is cleared; if the most
recent entry is an `Assistant` message carrying `ToolUse` content, the
history (hence its length) is unchanged and the interruption flag is
still cleared. -/
theorem handle_interrupt_recovery (s : Session) (hs : List Message) (m : Message) :
    (s.messages = hs ++ [m] → m.role = .User →
      s.handle_interrupt.1 = { messages := hs, interrupted := false }) ∧
    (s.messages = hs ++ [m] → m.role = .Assistant → m.has_tool_use = true →
      s.handle_interrupt.1.messages = s.messages ∧
      s.handle_interrupt.1.messages.length = s.messages.length ∧
      s.handle_interrupt.1.interrupted = false) := by
  constructor
  · intro h hrole
    have hu : m.is_user = true := by simp [Message.is_user, hrole]
    simp [Session.handle_interrupt, h, List.getLast?_concat, hu, List.dropLast_concat]
  · intro h hrole _
    have hu : m.is_user = false := by simp [Message.is_user, hrole]
    simp [Session.handle_interrupt, h, List.getLast?_concat, hu]

/-- Witness for `handle_interrupt_recovery`: a lone unanswered user
message is popped and the flag cleared; a trailing assistant message
with tool use is kept and the flag cleared. -/
theorem handle_interrupt_recovery_witness :
    (Session.mk [text_msg] true).handle_interrupt.1 =
      { messages := [], interrupted := false } ∧
    (Session.mk [assistant_tool_msg] true).handle_interrupt.1.messages =
      [assistant_tool_msg] ∧
    (Session.mk [assistant_tool_msg] true).handle_interrupt.1.interrupted = false := by
  refine ⟨(handle_interrupt_recovery _ [] text_msg).1 rfl rfl, ?_, ?_⟩
  · exact ((handle_interrupt_recovery _ [] assistant_tool_msg).2 rfl rfl rfl).1
  · exact ((handle_interrupt_recovery _ [] assistant_tool_msg).2 rfl rfl rfl).2.2

/-! ## Claims about `DefaultToolkit::process_tool` -/

/-- Claim C1 counterexample: The claim says the executor always returns
normally with an error-flagged `ToolResult` when the tool name is
unknown.  In the source (`src/toolkit/default.rs` line 323) an unknown
name is returned as `Err(anyhow!("Unknown tool: …"))` — a hard error
propagated out of `process_tool`, not a `ToolResult`. -/
theorem process_tool_unknown_tool_hard_error :
    process_tool env_missing (Tool.mk "nope" "" Json.null []) = .err "Unknown tool: nope" ∧
    ∀ text writes,
      process_tool env_missing (Tool.mk "nope" "" Json.null []) ≠ .ok text writes := by
  have h : process_tool env_missing (Tool.mk "nope" "" Json.null []) =
      .err "Unknown tool: nope" := by decide
  refine ⟨h, fun text writes hh => ?_⟩
  rw [h] at hh
  exact ToolOutcome.noConfusion hh

/-- Claim C1 amended: `process_tool` propagates failures as hard errors
out of the execute operation instead of wrapping them into error-flagged
`ToolResult`s: an unknown tool name yields `Err("Unknown tool: …")`, a
missing `command` parameter for `text_editor` yields
`Err("Missing command parameter")`, and an execution failure such as an
unreadable file in the `view` sub-command yields `Err` carrying the
captured diagnostic. -/
theorem process_tool_failures_propagate :
    (∀ (env : Env) (t : Tool), t.name ≠ "bash" → t.name ≠ "text_editor" →
      t.name ≠ "fetch_web_content" → t.name ≠ "process_manager" →
      process_tool env t = .err ("Unknown tool: " ++ t.name)) ∧
    (∀ (env : Env) (t : Tool) (fields : List (String × Json)),
      t.name = "text_editor" → t.parameters = Json.obj fields →
      get_str fields "command" = none →
      process_tool env t = .err "Missing command parameter") ∧
    (∀ (env : Env) (path : String) (a b : Int) (e : String),
      env.readFile path = .error e →
      process_tool env (te_view_call path a b) = .err ("Failed to read file: " ++ e)) := by
  refine ⟨?_, ?_, ?_⟩
  · intro env t h1 h2 h3 h4
    simp [process_tool, h1, h2, h3, h4]
  · intro env t fields ht hp hc
    simp [process_tool, ht, hp, process_text_editor, Json.asObj?, hc]
  · intro env path a b e hread
    simp [process_tool, te_view_call, process_text_editor, Json.asObj?, get_str,
      List.lookup, Json.asStr?, te_view, hread]

/-- Witness for `process_tool_failures_propagate`: an unknown tool, a
`text_editor` call without `command`, and a `view` on a missing file all
come back as `Err`. -/
theorem process_tool_failures_propagate_witness :
    process_tool env_missing (Tool.mk "shell" "" Json.null []) = .err "Unknown tool: shell" ∧
    process_tool env_missing
      (Tool.mk "text_editor" "" (Json.obj [("path", Json.str "f.txt")]) []) =
      .err "Missing command parameter" ∧
    process_tool env_missing (te_view_call "f.txt" 1 2) =
      .err "Failed to read file: No such file or directory (os error 2)" := by
  refine ⟨?_, ?_, ?_⟩
  · exact process_tool_failures_propagate.1 env_missing _
      (by decide) (by decide) (by decide) (by decide)
  · exact process_tool_failures_propagate.2.1 env_missing _
      [("path", Json.str "f.txt")] rfl rfl (by decide)
  · exact process_tool_failures_propagate.2.2 env_missing "f.txt" 1 2 _ rfl

/-- Claim C7 counterexample: The claim says every two-element
`view_range` is clamped and the corresponding lines returned.  For
`view_range:[4,5]` on a two-line file the clamped start (4) exceeds the
clamped end (2) and the slice `lines[3..2]` panics instead of returning
any lines. -/
theorem view_reversed_range_panics :
    process_tool env_two_lines (te_view_call "f.txt" 4 5) = .crash ∧
    ∀ text writes,
      process_tool env_two_lines (te_view_call "f.txt" 4 5) ≠ .ok text writes := by
  have h : process_tool env_two_lines (te_view_call "f.txt" 4 5) = .crash := by decide
  refine ⟨h, fun text writes hh => ?_⟩
  rw [h] at hh
  exact ToolOutcome.noConfusion hh

/-- Claim C7 amended: For a file of `n` lines and a two-element
`view_range [a, b]` of `i64`-representable integers with
`a > i64::MIN` (so that the decrement `a - 1` does not overflow), the
`view` command clamps the start to at least 1 and the end to at most
`n`, and — provided the clamp arithmetic keeps the slice well-formed,
i.e. `max (a-1) 0 ≤ min b n` — returns exactly the 1-based lines
`max a 1` through `min b n`, newline-joined (otherwise the slice index
panics, as does the overflowing decrement at `a = i64::MIN`).  In
particular `view_range [3,100]` on a ten-line file returns lines 3
through 10 only. -/
theorem view_clamps_range (env : Env) (path content : String) (a b : Int)
    (hread : env.readFile path = .ok content)
    (ha1 : -(2 ^ 63) < a) (ha2 : a < 2 ^ 63) (hb1 : b < 2 ^ 63)
    (hb : max (a - 1) 0 ≤ min b ((rust_lines content).length : Int)) :
    process_tool env (te_view_call path a b) =
      .ok (String.intercalate "\n"
        (lines_from_to (rust_lines content)
          (max a 1).toNat
          (min b ((rust_lines content).length : Int)).toNat)) [] := by
  have h0 : (0 : Int) ≤ min b ((rust_lines content).length : Int) :=
    le_trans (le_max_right _ _) hb
  have hb0 : (0 : Int) ≤ b := le_trans h0 (min_le_left _ _)
  have hia : Json.asInt? (Json.num a) = some a := by
    simp only [Json.asInt?]
    rw [if_pos ⟨by omega, ha2⟩]
  have hib : Json.asInt? (Json.num b) = some b := by
    simp only [Json.asInt?]
    rw [if_pos ⟨by omega, hb1⟩]
  have hamin : ¬ a = -(2 ^ 63) := by omega
  have hs : (max (a - 1) 0).toNat = (max a 1).toNat - 1 := by
    rcases le_total a 1 with h | h
    · rw [max_eq_right (by omega : a - 1 ≤ 0), max_eq_right h]
      omega
    · rw [max_eq_left (by omega : (0 : Int) ≤ a - 1), max_eq_left h]
      omega
  have ht : (min b ((rust_lines content).length : Int)).toNat -
        (max (a - 1) 0).toNat =
      (min b ((rust_lines content).length : Int)).toNat + 1 - (max a 1).toNat := by
    rcases le_total a 1 with h | h
    · rw [max_eq_right (by omega : a - 1 ≤ 0), max_eq_right h]
      omega
    · rw [max_eq_left (by omega : (0 : Int) ≤ a - 1), max_eq_left h]
      omega
  simp [process_tool, te_view_call, process_text_editor, Json.asObj?, get_str,
    List.lookup, Json.asStr?, te_view, hread, get_arr, Json.asArr?, hia, hib, hamin,
    lines_from_to, ← hs, ← ht]
  simp only [le_min_iff, max_le_iff] at hb h0
  split
  · rename_i hEq
    exact absurd hEq (by omega)
  · split
    · rfl
    · rename_i hc
      exact absurd ⟨by omega, ⟨by omega, by omega⟩, by omega⟩ hc

/-- Witness for `view_clamps_range`: scenario C — `view_range [3,100]`
on a ten-line file is clamped to `[3,10]` and returns lines 3 through 10
only. -/
theorem view_clamps_range_witness :
    env_ten_lines.readFile "notes.txt" = .ok ten_lines_content ∧
    max ((3 : Int) - 1) 0 ≤ min 100 ((rust_lines ten_lines_content).length : Int) ∧
    process_tool env_ten_lines (te_view_call "notes.txt" 3 100) =
      .ok "l3\nl4\nl5\nl6\nl7\nl8\nl9\nl10" [] := by
  refine ⟨rfl, by decide, ?_⟩
  have h := view_clamps_range env_ten_lines "notes.txt" ten_lines_content 3 100 rfl
    (by decide) (by decide) (by decide) (by decide)
  rw [h]
  decide

/-- An empty pattern is a prefix of every character list, so it occurs
in every string. -/
theorem contains_sub_nil (s : List Char) : contains_sub [] s = true := by
  cases s <;> simp [contains_sub, List.isPrefixOf]

/-- Unfolding occurrence search one character at a time. -/
theorem contains_sub_cons (pat : List Char) (c : Char) (rest : List Char) :
    contains_sub pat (c :: rest) =
      (pat.isPrefixOf (c :: rest) || contains_sub pat rest) := by
  simp [contains_sub, List.tails_cons]

/-- When the pattern occurs nowhere in the subject, the replacement loop
reproduces the subject unchanged. -/
theorem replace_all_of_not_contains (old new s : List Char)
    (h : contains_sub old s = false) :
    replace_all old new s = s := by
  induction s with
  | nil => simp [replace_all]
  | cons c rest ih =>
    rw [contains_sub_cons, Bool.or_eq_false_iff] at h
    rw [replace_all, if_neg (by simp [h.1]), ih h.2]

/-- The replacement loop replaces *every* occurrence, not only the
first: as long as no occurrence of `old` starts inside the leading
segment `x`, the occurrence after `x` is rewritten to `new` and the loop
continues on the remainder `y`. -/
theorem replace_all_append (old new x y : List Char) (hold : old ≠ [])
    (hx : ∀ i, i < x.length → old.isPrefixOf (List.drop i (x ++ old ++ y)) = false) :
    replace_all old new (x ++ old ++ y) = x ++ new ++ replace_all old new y := by
  induction x with
  | nil =>
    obtain ⟨c, os, rfl⟩ : ∃ c os, old = c :: os := by
      cases old with
      | nil => exact absurd rfl hold
      | cons c os => exact ⟨c, os, rfl⟩
    have hp : (c :: os).isPrefixOf (c :: (os ++ y)) = true := by
      rw [List.isPrefixOf_iff_prefix, ← List.cons_append]
      exact List.prefix_append _ _
    simp only [List.nil_append, List.cons_append]
    rw [replace_all, if_pos hp, List.length_cons, Nat.add_sub_cancel, List.drop_left]
  | cons c x' ih =>
    have h0 : (old.isPrefixOf (c :: (x' ++ old ++ y))) = false := by
      have := hx 0 (by simp)
      rwa [List.drop_zero, List.cons_append] at this
    simp only [List.cons_append]
    rw [replace_all, if_neg (by rw [h0]; exact Bool.false_ne_true)]
    rw [ih (fun i hi => by
      have := hx (i + 1) (by simpa using Nat.succ_lt_succ hi)
      rwa [List.cons_append, List.cons_append, List.drop_succ_cons] at this)]

/-- Claim C10: The `str_replace` sub-command, on a readable file:
(1) succeeds, reporting the `Replaced …` message, and rewrites the file
with `rust_replace content old new` where a missing `new_str` parameter
is treated as the empty string (`newOpt.getD ""`);
(2) the underlying replacement loop replaces every occurrence of
`old_str`, not only the first; and
(3) when `old_str` does not occur in the content the rewritten content
is identical to the original (and by (1) the operation still reports
success). -/
theorem str_replace_semantics :
    (∀ (env : Env) (path content old : String) (newOpt : Option String),
      env.readFile path = .ok content →
      env.writeFile path (rust_replace content old (newOpt.getD "")) = .ok () →
      process_tool env (te_str_replace_call path old newOpt) =
        .ok ("Replaced \x27" ++ old ++ "\x27 with \x27" ++ newOpt.getD "" ++ "\x27 in " ++ path)
          [(path, rust_replace content old (newOpt.getD ""))]) ∧
    (∀ (old new x y : List Char), old ≠ [] →
      (∀ i, i < x.length → old.isPrefixOf (List.drop i (x ++ old ++ y)) = false) →
      replace_all old new (x ++ old ++ y) = x ++ new ++ replace_all old new y) ∧
    (∀ (content old new : String), contains_sub old.data content.data = false →
      rust_replace content old new = content) := by
  refine ⟨?_, replace_all_append, ?_⟩
  · intro env path content old newOpt hread hwrite
    cases newOpt <;>
      simp_all [process_tool, te_str_replace_call, process_text_editor, Json.asObj?,
        get_str, List.lookup, Json.asStr?, te_str_replace, Option.getD]
  · intro content old new h
    have hne : old.data ≠ [] := by
      intro hnil
      rw [hnil, contains_sub_nil] at h
      exact Bool.noConfusion h
    rw [rust_replace, if_neg (by simpa [List.isEmpty_iff] using hne),
      replace_all_of_not_contains _ _ _ h]

/-- Witness for `str_replace_semantics`: deleting `foo` (no `new_str`
supplied) removes **both** occurrences and succeeds; the loop equation
rewrites the leading occurrence; a pattern that does not occur leaves
the content identical. -/
theorem str_replace_semantics_witness :
    process_tool env_log (te_str_replace_call "log.txt" "foo" none) =
      .ok "Replaced \x27foo\x27 with \x27\x27 in log.txt" [("log.txt", " bar ")] ∧
    replace_all "ab".data "X".data "ab cab".data =
      "X".data ++ replace_all "ab".data "X".data " cab".data ∧
    rust_replace "hello" "zz" "Q" = "hello" := by
  refine ⟨?_, ?_, ?_⟩
  · have h := str_replace_semantics.1 env_log "log.txt" "foo bar foo" "foo" none rfl rfl
    rw [h]
    simp [rust_replace, replace_all]
  · have h := str_replace_semantics.2.1 "ab".data "X".data [] " cab".data
      (by decide) (fun i hi => absurd hi (by simp))
    simpa using h
  · exact str_replace_semantics.2.2 "hello" "zz" "Q" (by decide)

end Goose
